import Mathlib

/-
Verification of the crimeguardpro role-based crime-management application
(Flask + MongoDB) against its natural-language specification.

The Python source is shallowly embedded: MongoDB documents become a BSON-like
inductive value type, collections become association lists, request handlers
become pure functions from (decoded token claims, store, request data) to
(HTTP status, response payload, new store).  Machine-level concerns that no
verified claim depends on (UTF-8 byte layout of strings, the exact hex
rendering of ObjectIds, wall-clock reading) are modelled by abstract injective
functions, each marked by a comment at its definition.
-/

/-- BSON-like values held in MongoDB documents: null, booleans, integers,
strings, store-generated ObjectIds, datetimes, arrays and nested documents.
A document is an association list of field name to value (Python dicts have
unique keys, so list entries stand for the dict's items in order). -/
inductive BVal where
  | vNull
  | vBool (b : Bool)
  | vInt (n : Int)
  | vStr (s : String)
  | vOid (n : Nat)
  | vDate (t : Nat)
  | vArr (items : List BVal)
  | vDoc (fields : List (String × BVal))
deriving Repr

/-- A MongoDB document: ordered field list of a Python dict. -/
abbrev BDoc := List (String × BVal)

/-- Canonical string form of an ObjectId, str(ObjectId) in Python; the hex
rendering is abstracted by an injective rendering of the abstract id. -/
def oidStr (n : Nat) : String := "oid-" ++ toString n

/-- ISO-8601 rendering of a datetime, datetime.isoformat() in Python; the
textual format is abstracted by an injective rendering of the instant. -/
def isoStr (t : Nat) : String := "iso-" ++ toString t

mutual

/-- routes/admin_routes.py serialize_doc, the recursive document sanitizer,
modelling the function's body after its falsy guard (`if not doc: return
None`): drops the password_hash field of the document, converts ObjectId and
datetime values to strings, recurses into nested documents and into
documents that are items of a list.  (Python pops the single password_hash
key of the dict; on unique-key field lists this equals dropping every entry
with that key, as done here.)  The guard itself appears wherever the source
calls the function: at the top level as `serialize_doc_opt` below, and
inside `serializeVal`/`serializeItem` for the recursive calls, where a
nested empty dict comes back as None (vNull). -/
def serialize_doc : BDoc → BDoc
  | [] => []
  | (k, v) :: rest =>
      if k = "password_hash" then serialize_doc rest
      else (k, serializeVal v) :: serialize_doc rest

/-- Value transformation of serialize_doc's per-field loop: ObjectId → str,
datetime → isoformat, list → per-item conversion, dict → recursion through
the guarded function (`doc[k] = serialize_doc(v)`: an empty nested dict is
falsy and comes back as None), other values unchanged. -/
def serializeVal : BVal → BVal
  | .vOid n => .vStr (oidStr n)
  | .vDate t => .vStr (isoStr t)
  | .vArr xs => .vArr (serializeItems xs)
  | .vDoc d => if d.isEmpty then .vNull else .vDoc (serialize_doc d)
  | v => v

/-- serialize_doc's list comprehension over the items of a list value. -/
def serializeItems : List BVal → List BVal
  | [] => []
  | x :: xs => serializeItem x :: serializeItems xs

/-- serialize_doc's per-item conversion inside a list: dict items go through
the guarded recursive call `serialize_doc(i)` (an empty dict item comes back
as None), ObjectIds and datetimes become strings, every other item —
including a nested list — is kept unchanged (the source comprehension has no
list case). -/
def serializeItem : BVal → BVal
  | .vDoc d => if d.isEmpty then .vNull else .vDoc (serialize_doc d)
  | .vOid n => .vStr (oidStr n)
  | .vDate t => .vStr (isoStr t)
  | v => v

end

/-- serialize_doc including its falsy guard: Python returns None when the
argument is None or the empty dict, otherwise processes the document. -/
def serialize_doc_opt : Option BDoc → Option BDoc
  | none => none
  | some d => if d.isEmpty then none else some (serialize_doc d)

mutual

/-- models/__init__.py to_str_id, modelling the function's body after its
falsy guard (`if not doc: return None`): recursively converts ObjectId
fields of a document to strings.  Unlike serialize_doc it removes no field
and leaves datetimes alone.  The guard appears wherever the source calls the
function: at the top level as `to_str_id_opt` below, and inside
`toStrIdVal`/`toStrIdItem` for the recursive calls, where a nested empty
dict comes back as None (vNull). -/
def to_str_id : BDoc → BDoc
  | [] => []
  | (k, v) :: rest => (k, toStrIdVal v) :: to_str_id rest

/-- Value transformation of to_str_id's per-field loop; nested dicts go
through the guarded recursive call (`doc[k] = to_str_id(v)`: an empty
nested dict is falsy and comes back as None). -/
def toStrIdVal : BVal → BVal
  | .vOid n => .vStr (oidStr n)
  | .vArr xs => .vArr (toStrIdItems xs)
  | .vDoc d => if d.isEmpty then .vNull else .vDoc (to_str_id d)
  | v => v

/-- to_str_id's list comprehension over the items of a list value. -/
def toStrIdItems : List BVal → List BVal
  | [] => []
  | x :: xs => toStrIdItem x :: toStrIdItems xs

/-- to_str_id's per-item conversion inside a list: dict items go through the
guarded recursive call `to_str_id(i)` (an empty dict item comes back as
None), ObjectIds converted, everything else unchanged. -/
def toStrIdItem : BVal → BVal
  | .vDoc d => if d.isEmpty then .vNull else .vDoc (to_str_id d)
  | .vOid n => .vStr (oidStr n)
  | v => v

end

/-- to_str_id including its falsy guard (None and the empty dict map to None). -/
def to_str_id_opt : Option BDoc → Option BDoc
  | none => none
  | some d => if d.isEmpty then none else some (to_str_id d)

mutual

/-- True when a document contains a field named password_hash at any nesting
depth (through nested documents and arrays). -/
def docHasPH : BDoc → Bool
  | [] => false
  | (k, v) :: rest => k == "password_hash" || valHasPH v || docHasPH rest

/-- True when a value contains a password_hash field at any depth. -/
def valHasPH : BVal → Bool
  | .vArr xs => itemsHasPH xs
  | .vDoc d => docHasPH d
  | _ => false

/-- True when some item of a list contains a password_hash field. -/
def itemsHasPH : List BVal → Bool
  | [] => false
  | x :: xs => valHasPH x || itemsHasPH xs

end

mutual

/-- True when no array of the document appears directly inside another array:
exactly the documents with this shape are fully traversed by serialize_doc,
whose per-item conversion leaves list items that are lists unchanged. -/
def docNoNestedArr : BDoc → Bool
  | [] => true
  | (_, v) :: rest => valNoNestedArr v && docNoNestedArr rest

/-- No array-directly-inside-array below this value. -/
def valNoNestedArr : BVal → Bool
  | .vArr xs => itemsNoNestedArr xs
  | .vDoc d => docNoNestedArr d
  | _ => true

/-- Items of an array: none may itself be an array, and each is recursively
free of nested arrays. -/
def itemsNoNestedArr : List BVal → Bool
  | [] => true
  | .vArr _ :: _ => false
  | x :: xs => valNoNestedArr x && itemsNoNestedArr xs

end

mutual

/-- True when the document holds no empty nested document at any position a
further sanitizer pass converts (field values of documents and document
items of sequences): exactly on such sanitizer outputs is a second pass the
identity, since the guarded recursion turns an empty document into null. -/
def docNoEmptySubdoc : BDoc → Bool
  | [] => true
  | (_, v) :: rest => valNoEmptySubdoc v && docNoEmptySubdoc rest

/-- The value is not an empty document, and recursively so below it (at the
positions a sanitizer pass converts). -/
def valNoEmptySubdoc : BVal → Bool
  | .vDoc d => !d.isEmpty && docNoEmptySubdoc d
  | .vArr xs => itemsNoEmptySubdoc xs
  | _ => true

/-- No item of the array is an empty document, recursively; items that are
themselves arrays are never touched by a sanitizer pass, so their contents
are unconstrained. -/
def itemsNoEmptySubdoc : List BVal → Bool
  | [] => true
  | x :: xs => itemNoEmptySubdoc x && itemsNoEmptySubdoc xs

/-- One array item: a document item must be nonempty and recursively free of
empty subdocuments; every other item (arrays included) is unconstrained. -/
def itemNoEmptySubdoc : BVal → Bool
  | .vDoc d => !d.isEmpty && docNoEmptySubdoc d
  | _ => true

end

/-- Python str.lower() on one character, for the ASCII letters that occur in
the email addresses at issue: uppercase A-Z shift by 32, all else unchanged. -/
def lowerChar (c : Char) : Char :=
  if 65 ≤ c.toNat ∧ c.toNat ≤ 90 then Char.ofNat (c.toNat + 32) else c

/-- Python str.lower() (ASCII range), applied characterwise. -/
def lowerStr (s : String) : String := ⟨s.data.map lowerChar⟩

/-- True when the string contains at least one uppercase ASCII letter. -/
def hasUpper (s : String) : Bool := s.data.any (fun c => 65 ≤ c.toNat && c.toNat ≤ 90)

/-- Decoded JWT claims as issued by auth_routes.create_token /
app.generate_token: subject id (str of the user's ObjectId), email, display
name and role.  iat is not read anywhere and is omitted. -/
structure Claims where
  user_id : String
  email : String
  name : String
  role : String
deriving DecidableEq, Repr

/-- A bearer token as jwt.decode sees it: either undecodable bytes, or a
signed payload carrying claims, an expiry instant and the validity of its
signature against the process secret. -/
inductive Token where
  | malformed
  | signed (claims : Claims) (exp : Nat) (sigValid : Bool)
deriving DecidableEq, Repr

/-- Outcome classes of jwt.decode (PyJWT): DecodeError for malformed input,
InvalidSignatureError for a bad signature, ExpiredSignatureError when the
(signature-valid) token's exp is not after `now`, else the decoded claims.
All three error classes are subclasses of InvalidTokenError. -/
inductive DecodeOutcome where
  | ok (c : Claims)
  | errExpired
  | errInvalidSignature
  | errMalformed
deriving DecidableEq, Repr

/-- jwt.decode(token, secret, algorithms=["HS256"]) at clock instant `now`:
format and signature are validated before the exp claim (PyJWT raises
ExpiredSignatureError when exp <= now). -/
def jwtDecode (now : Nat) : Token → DecodeOutcome
  | .malformed => .errMalformed
  | .signed c e sv =>
      if !sv then .errInvalidSignature
      else if e ≤ now then .errExpired
      else .ok c

/-- utils/common.py verify_token (reimplemented identically in app.py,
routes/case_routes.py, routes/admin_routes.py, and — catching every
exception — routes/officer_routes.py): the Authorization header is modelled
as `Option Token` (none = header missing or not of Bearer shape).  Every
decode failure — expired, bad signature, malformed — is caught and collapsed
to None; only a successful decode yields the claims. -/
def verify_token (now : Nat) : Option Token → Option Claims
  | none => none
  | some t =>
      match jwtDecode now t with
      | .ok c => some c
      | .errExpired => none
      | .errInvalidSignature => none
      | .errMalformed => none

/-- Result of the inline token handling of auth_routes.get_profile. -/
inductive ProfileAuth where
  | ok (c : Claims)
  | err (status : Nat) (msg : String)
deriving DecidableEq, Repr

/-- The token-verification prologue of GET /api/profile/(user_id)
(auth_routes.get_profile): missing header → 401, ExpiredSignatureError →
401 "Token has expired", any other InvalidTokenError → 401 "Invalid token". -/
def get_profile_auth (now : Nat) : Option Token → ProfileAuth
  | none => .err 401 "Authorization header missing or invalid"
  | some t =>
      match jwtDecode now t with
      | .ok c => .ok c
      | .errExpired => .err 401 "Token has expired"
      | .errInvalidSignature => .err 401 "Invalid token"
      | .errMalformed => .err 401 "Invalid token"

/-- routes/admin_routes.py require_admin: verify the token, then require role
admin; a missing/expired/invalid token and a wrong role are equally None. -/
def require_admin (now : Nat) (tok : Option Token) : Option Claims :=
  match verify_token now tok with
  | none => none
  | some c => if c.role == "admin" then some c else none

/-- Response status of GET /api/admin/users (admin_routes.get_users) on its
authorization path: every require_admin failure is 401 "Unauthorized". -/
def admin_get_users_status (now : Nat) (tok : Option Token) : Nat :=
  match require_admin now tok with
  | none => 401
  | some _ => 200

/-- app.py admin_required: same collapse as require_admin (verify, then role
check, both failures None). -/
def admin_required (now : Nat) (tok : Option Token) : Option Claims :=
  match verify_token now tok with
  | none => none
  | some c => if c.role == "admin" then some c else none

/-- Response status of the app.py admin_api handlers (admin_list_users etc.):
every admin_required failure — including a missing token — is 403. -/
def admin_api_status (now : Nat) (tok : Option Token) : Nat :=
  match admin_required now tok with
  | none => 403
  | some _ => 200

/-- A document of the users collection.  Fields written by the two creation
paths: registration (models/user_model.py create_user) sets the first seven,
the admin path (routes/admin_routes.py create_user) also badge_number and
department; name is set only by officer profile updates.  last_login is read
nowhere relevant and omitted. -/
structure UserDoc where
  uid : String
  first_name : String := ""
  last_name : String := ""
  email : String
  phone : String := ""
  password_hash : String := ""
  role : String := "citizen"
  badge_number : String := ""
  department : String := ""
  name : Option String := none
  created_at : Nat := 0
  updated_at : Nat := 0
deriving DecidableEq, Repr

/-- Functional model of werkzeug generate_password_hash: an injective tag of
the password.  Only the equality behaviour tested by check_password_hash is
relevant to any claim. -/
def generate_password_hash (p : String) : String := "pbkdf2-" ++ p

/-- werkzeug check_password_hash against the model hash. -/
def check_password_hash (h p : String) : Bool := h == generate_password_hash p

namespace UserModel

/-- models/user_model.py create_user: reject when a stored user's email
equals email.lower() exactly, else insert the user with the lowercased email
and hashed password.  Returns (new store, error message if rejected);
`newId` stands for the ObjectId Mongo generates. -/
def create_user (now : Nat) (newId : String) (store : List UserDoc)
    (first last email phone password role : String) :
    List UserDoc × Option String :=
  if (store.find? (fun u => u.email == lowerStr email)).isSome then
    (store, some "Email already registered")
  else
    (store ++ [{ uid := newId, first_name := first, last_name := last,
                 email := lowerStr email, phone := phone,
                 password_hash := generate_password_hash password, role := role,
                 created_at := now, updated_at := now }], none)

end UserModel

/-- Request body of POST /api/admin/users; "" stands for an absent or falsy
JSON field, matching the source's truthiness tests and data.get(k, ""). -/
structure AdminUserData where
  first_name : String := ""
  last_name : String := ""
  email : String := ""
  role : String := ""
  badge_number : String := ""
  department : String := ""
  password : String := ""
deriving DecidableEq, Repr

namespace AdminRoutes

/-- routes/admin_routes.py create_user (POST /api/admin/users): require an
admin token, require truthy email and role, require a password; then insert
the user with the email stored verbatim — no duplicate check and no
lowercasing.  Returns (status, new store). -/
def create_user (now : Nat) (newId : String) (tok : Option Token)
    (store : List UserDoc) (d : AdminUserData) : Nat × List UserDoc :=
  match require_admin now tok with
  | none => (401, store)
  | some _ =>
      if d.email = "" || d.role = "" then (400, store)
      else if d.password = "" then (400, store)
      else (201, store ++ [{ uid := newId, first_name := d.first_name,
                             last_name := d.last_name, email := d.email,
                             role := d.role, badge_number := d.badge_number,
                             department := d.department,
                             password_hash := generate_password_hash d.password,
                             created_at := now }])

end AdminRoutes

/-- Pairwise distinctness of stored emails, compared case-insensitively. -/
def emailsDistinctCI : List UserDoc → Bool
  | [] => true
  | u :: rest =>
      rest.all (fun v => lowerStr u.email != lowerStr v.email) && emailsDistinctCI rest

/-- Outcome of POST /api/login (auth_routes.login).  Statuses and bodies in
the source: missingFields → 400, noAccount → 404 "No (role) account found for
this email", badPassword → 401 "Invalid password", success → 200 with the
user (password_hash popped) and a fresh token. -/
inductive LoginResult where
  | missingFields
  | noAccount
  | badPassword
  | success (user : UserDoc)
deriving DecidableEq, Repr

/-- auth_routes.login: require truthy email/password/role, look up the user
by exact email AND role match (no lowercasing of the submitted email), then
check the password. -/
def login (store : List UserDoc) (email password role : String) : LoginResult :=
  if email = "" || password = "" || role = "" then .missingFields
  else
    match store.find? (fun u => u.email == email && u.role == role) with
    | none => .noAccount
    | some u =>
        if !check_password_hash u.password_hash password then .badPassword
        else .success u

/-- A document of the officer_firs collection as written by
officer_routes.create_officer_fir (a raw dict; the mongoengine OfficerFIR
class below is unused by every route). -/
structure Fir where
  fid : Nat
  title : String := ""
  category : String := ""
  complainant_name : String := ""
  contact : String := ""
  location : String := ""
  description : String := ""
  officer_id : String
  officer_name : String := ""
  status : String := ""
  priority : String := ""
  officer_notes : Option String := none
  created_at : Nat := 0
  updated_at : Nat := 0
deriving DecidableEq, Repr

/-- Default priority declared by the unused mongoengine model class
OfficerFIR in models/officer_fir_model.py (StringField(default="High")). -/
def OfficerFIR_model_priority_default : String := "High"

/-- Default status declared by the unused mongoengine model class OfficerFIR
in models/officer_fir_model.py (StringField(default="Open")). -/
def OfficerFIR_model_status_default : String := "Open"

/-- Request body of POST /api/officer/fir; priority none = key absent, in
which case the source stores data.get("priority", "Normal").  No status is
read from the request at all. -/
structure FirCreateData where
  title : String := ""
  category : String := ""
  complainant_name : String := ""
  contact : String := ""
  location : String := ""
  description : String := ""
  priority : Option String := none
deriving DecidableEq, Repr

/-- officer_routes.create_officer_fir (POST /api/officer/fir): verify token
(401), look the caller up among users with role officer (404), require the
six mandatory fields truthy (400), then insert the FIR with status "Pending"
and priority defaulting to "Normal".  `newId` stands for the generated
ObjectId; returns (status, stored document if created). -/
def create_officer_fir (now newId : Nat) (payload : Option Claims)
    (users : List UserDoc) (data : FirCreateData) : Nat × Option Fir :=
  match payload with
  | none => (401, none)
  | some p =>
      match users.find? (fun u => u.uid == p.user_id && u.role == "officer") with
      | none => (404, none)
      | some officer =>
          if data.title = "" || data.category = "" || data.complainant_name = "" ||
             data.contact = "" || data.location = "" || data.description = "" then
            (400, none)
          else
            (201, some { fid := newId, title := data.title,
                         category := data.category,
                         complainant_name := data.complainant_name,
                         contact := data.contact, location := data.location,
                         description := data.description,
                         officer_id := p.user_id,
                         officer_name := officer.name.getD "Unknown Officer",
                         status := "Pending",
                         priority := data.priority.getD "Normal",
                         officer_notes := none,
                         created_at := now, updated_at := now })

/-- officer_routes.get_officer_fir (GET /api/officer/fir/(fir_id)): 401
without a verified token, 400 on a falsy user_id claim, 404 when the FIR is
absent, 403 "Access denied" unless the stored officer_id equals the caller's
user_id, else 200 with the FIR.  (The response-only string formatting of ids
and dates is omitted; it alters no stored data and no status.) -/
def get_officer_fir (payload : Option Claims) (store : List Fir) (fir_id : Nat) :
    Nat × Option Fir :=
  match payload with
  | none => (401, none)
  | some p =>
      if p.user_id = "" then (400, none)
      else
        match store.find? (fun f => f.fid == fir_id) with
        | none => (404, none)
        | some fir =>
            if fir.officer_id ≠ p.user_id then (403, none)
            else (200, some fir)

/-- Update request body of PUT /api/officer/fir/(fir_id); none or "" stands
for an absent or falsy field, dropped by the source's truthiness filter over
the allowed keys status, priority and officer_notes. -/
structure FirUpdate where
  status : Option String := none
  priority : Option String := none
  officer_notes : Option String := none
deriving DecidableEq, Repr

/-- The source's `{k: v for k, v in data.items() if k in allowed and v}`
filter on one field: falsy values (absent or "") are dropped. -/
def keepField : Option String → Option String
  | some s => if s = "" then none else some s
  | none => none

/-- `$set` of the collected update fields plus updated_at on one FIR. -/
def applyFirUpdate (now : Nat) (u : FirUpdate) (f : Fir) : Fir :=
  { f with
    status := (keepField u.status).getD f.status,
    priority := (keepField u.priority).getD f.priority,
    officer_notes :=
      match keepField u.officer_notes with
      | some s => some s
      | none => f.officer_notes,
    updated_at := now }

/-- officer_routes.update_officer_fir (PUT /api/officer/fir/(fir_id)):
401 / 400 / 404 as in get_officer_fir, 403 "Access denied" unless the caller
owns the FIR, 400 when no truthy allowed field remains, else update the
stored document and return 200.  Returns (status, new store). -/
def update_officer_fir (now : Nat) (payload : Option Claims) (store : List Fir)
    (fir_id : Nat) (data : FirUpdate) : Nat × List Fir :=
  match payload with
  | none => (401, store)
  | some p =>
      if p.user_id = "" then (400, store)
      else
        match store.find? (fun f => f.fid == fir_id) with
        | none => (404, store)
        | some fir =>
            if fir.officer_id ≠ p.user_id then (403, store)
            else if (keepField data.status).isNone &&
                    (keepField data.priority).isNone &&
                    (keepField data.officer_notes).isNone then (400, store)
            else
              (200, store.map (fun g => if g.fid == fir_id
                                        then applyFirUpdate now data g else g))

/-- officer_routes.delete_officer_fir (DELETE /api/officer/fir/(fir_id)):
401 without a token, 404 when absent, 403 "Access denied" unless the caller
owns the FIR, else delete it and return 200.  Returns (status, new store). -/
def delete_officer_fir (payload : Option Claims) (store : List Fir)
    (fir_id : Nat) : Nat × List Fir :=
  match payload with
  | none => (401, store)
  | some p =>
      match store.find? (fun f => f.fid == fir_id) with
      | none => (404, store)
      | some fir =>
          if fir.officer_id ≠ p.user_id then (403, store)
          else (200, store.filter (fun f => !(f.fid == fir_id)))

/-- The cases collection: ObjectId key and stored document. -/
abbrev CaseStore := List (Nat × BDoc)

/-- cases_col.find_one({"_id": ObjectId(case_id)}). -/
def find_case (store : CaseStore) (cid : Nat) : Option BDoc :=
  (store.find? (fun p => p.1 == cid)).map (fun p => p.2)

/-- routes/case_routes.py get_case (GET /api/cases/(case_id)): look the case
up by id and return it.  The source reads only the path id and the cases
collection: the request's Authorization header is never inspected, no role or
ownership check is made.  `caller` records the credentials carried by the
request, which the handler body ignores.  Returns (status, response body). -/
def get_case (caller : Option Claims) (store : CaseStore) (cid : Nat) :
    Nat × Option BDoc :=
  match find_case store cid with
  | none => (404, none)
  | some c => (200, some (to_str_id c))

/-- An uploaded multipart file as the evidence handler consumes it: the
filename and content type of the part, and the byte length of file.read()
(the bytes themselves are threaded to GridFS unexamined and are abstracted
by their length, the only property the handler branches on). -/
structure UFile where
  filename : String
  size : Nat
  content_type : String := ""
deriving DecidableEq, Repr

/-- The 10 MiB evidence size ceiling (10 * 1024 * 1024 in the source). -/
def MAX_EVIDENCE_SIZE : Nat := 10 * 1024 * 1024

/-- One element of the handler's uploaded_files response list. -/
structure EvidenceEntry where
  evidence_id : Nat
  file_id : Nat
  filename : String
  size : Nat
deriving DecidableEq, Repr

/-- The per-file loop of officer_routes.upload_evidence: skip parts with an
empty filename; a file over the size ceiling appends one message to errors
and continues; with GridFS unavailable likewise; otherwise the blob and the
metadata record are written and one entry joins uploaded_files.  `nextFileId`
and `nextEvId` stand for the ids GridFS and insert_one generate.  Returns
(uploaded_files, errors) in request order. -/
def processFiles (fsAvail : Bool) (nextFileId nextEvId : Nat) :
    List UFile → List EvidenceEntry × List String
  | [] => ([], [])
  | f :: rest =>
      if f.filename = "" then processFiles fsAvail nextFileId nextEvId rest
      else if MAX_EVIDENCE_SIZE < f.size then
        let r := processFiles fsAvail nextFileId nextEvId rest
        (r.1, (f.filename ++ ": File too large (max 10MB)") :: r.2)
      else if !fsAvail then
        let r := processFiles fsAvail nextFileId nextEvId rest
        (r.1, (f.filename ++ ": File storage not available") :: r.2)
      else
        let r := processFiles fsAvail (nextFileId + 1) (nextEvId + 1) rest
        ({ evidence_id := nextEvId, file_id := nextFileId,
           filename := f.filename, size := f.size } :: r.1, r.2)

/-- officer_routes.upload_evidence (POST /api/officer/evidence): verify the
token (401), require a truthy user_id (400), require case_id or fir_id
(400), require files (400); when case_id is given the case must exist (404 —
the officer-assignment check of that branch is an explicit `pass` in the
source and allows every officer); when fir_id is given the FIR must exist
(404) and be owned by the caller (403).  Then the per-file loop runs and the
handler returns 400 "No files uploaded" when uploaded_files is empty, else
201 with the partitioned result.  Returns (status, uploaded_files, errors). -/
def upload_evidence (payload : Option Claims) (cases : List Nat)
    (firs : List Fir) (case_id fir_id : Option Nat) (files : List UFile)
    (fsAvail : Bool) : Nat × List EvidenceEntry × List String :=
  match payload with
  | none => (401, [], [])
  | some p =>
      if p.user_id = "" then (400, [], [])
      else if case_id.isNone && fir_id.isNone then (400, [], [])
      else if files.isEmpty then (400, [], [])
      else if case_id.isSome && !(cases.contains (case_id.getD 0)) then (404, [], [])
      else
        match fir_id with
        | some fid =>
            match firs.find? (fun f => f.fid == fid) with
            | none => (404, [], [])
            | some fir =>
                if fir.officer_id ≠ p.user_id then (403, [], [])
                else
                  let r := processFiles fsAvail 0 0 files
                  if r.1.isEmpty then (400, r.1, r.2) else (201, r.1, r.2)
        | none =>
            let r := processFiles fsAvail 0 0 files
            if r.1.isEmpty then (400, r.1, r.2) else (201, r.1, r.2)

/-- A sample stored user document with a secret hash inside a nested
document and an ObjectId reference, used to exercise the sanitizer. -/
def sanitizeProbeDoc : BDoc :=
  [("user", BVal.vDoc [("password_hash", BVal.vStr "h"),
                       ("email", BVal.vStr "e")]),
   ("ref", BVal.vOid 3)]

/- ------------------------------------------------------------------ -/
/- Helper lemmas                                                      -/
/- ------------------------------------------------------------------ -/

mutual

theorem serialize_doc_idem (d : BDoc)
    (h : docNoEmptySubdoc (serialize_doc d) = true) :
    serialize_doc (serialize_doc d) = serialize_doc d := by
  match d with
  | [] => rfl
  | (k, v) :: rest =>
      by_cases hk : k = "password_hash"
      · simp only [serialize_doc, hk, if_pos] at h ⊢
        exact serialize_doc_idem rest h
      · simp only [serialize_doc, hk, if_neg, not_false_iff, docNoEmptySubdoc,
          Bool.and_eq_true] at h
        simp only [serialize_doc, hk, if_neg, not_false_iff]
        rw [serializeVal_idem v h.1, serialize_doc_idem rest h.2]

theorem serializeVal_idem (v : BVal)
    (h : valNoEmptySubdoc (serializeVal v) = true) :
    serializeVal (serializeVal v) = serializeVal v := by
  match v with
  | .vNull | .vBool _ | .vInt _ | .vStr _ | .vOid _ | .vDate _ => rfl
  | .vArr xs =>
      simp only [serializeVal, valNoEmptySubdoc] at h
      simp only [serializeVal]
      rw [serializeItems_idem xs h]
  | .vDoc d =>
      cases hd : d.isEmpty with
      | true => simp [serializeVal, hd]
      | false =>
          simp only [serializeVal, hd, Bool.false_eq_true, if_false,
            valNoEmptySubdoc, Bool.and_eq_true, Bool.not_eq_true'] at h
          simp only [serializeVal, hd, Bool.false_eq_true, if_false, h.1]
          rw [serialize_doc_idem d h.2]

theorem serializeItems_idem (xs : List BVal)
    (h : itemsNoEmptySubdoc (serializeItems xs) = true) :
    serializeItems (serializeItems xs) = serializeItems xs := by
  match xs with
  | [] => rfl
  | x :: rest =>
      simp only [serializeItems, itemsNoEmptySubdoc, Bool.and_eq_true] at h
      simp only [serializeItems]
      rw [serializeItem_idem x h.1, serializeItems_idem rest h.2]

theorem serializeItem_idem (x : BVal)
    (h : itemNoEmptySubdoc (serializeItem x) = true) :
    serializeItem (serializeItem x) = serializeItem x := by
  match x with
  | .vNull | .vBool _ | .vInt _ | .vStr _ | .vOid _ | .vDate _ | .vArr _ => rfl
  | .vDoc d =>
      cases hd : d.isEmpty with
      | true => simp [serializeItem, hd]
      | false =>
          simp only [serializeItem, hd, Bool.false_eq_true, if_false,
            itemNoEmptySubdoc, Bool.and_eq_true, Bool.not_eq_true'] at h
          simp only [serializeItem, hd, Bool.false_eq_true, if_false, h.1]
          rw [serialize_doc_idem d h.2]

end

mutual

theorem doc_sanitized (d : BDoc) (h : docNoNestedArr d = true) :
    docHasPH (serialize_doc d) = false := by
  match d with
  | [] => rfl
  | (k, v) :: rest =>
      simp only [docNoNestedArr, Bool.and_eq_true] at h
      by_cases hk : k = "password_hash"
      · simp only [serialize_doc, hk, if_pos]
        exact doc_sanitized rest h.2
      · simp only [serialize_doc, hk, if_neg, not_false_iff, docHasPH,
          Bool.or_eq_false_iff]
        refine ⟨⟨?_, ?_⟩, ?_⟩
        · exact beq_eq_false_iff_ne.mpr hk
        · exact val_sanitized v h.1
        · exact doc_sanitized rest h.2

theorem val_sanitized (v : BVal) (h : valNoNestedArr v = true) :
    valHasPH (serializeVal v) = false := by
  match v with
  | .vNull | .vBool _ | .vInt _ | .vStr _ | .vOid _ | .vDate _ => rfl
  | .vArr xs =>
      simp only [valNoNestedArr] at h
      simp only [serializeVal, valHasPH]
      exact items_sanitized xs h
  | .vDoc d =>
      simp only [valNoNestedArr] at h
      cases hd : d.isEmpty with
      | true => simp [serializeVal, hd, valHasPH]
      | false =>
          simp only [serializeVal, hd, Bool.false_eq_true, if_false, valHasPH]
          exact doc_sanitized d h

theorem items_sanitized (xs : List BVal) (h : itemsNoNestedArr xs = true) :
    itemsHasPH (serializeItems xs) = false := by
  match xs with
  | [] => rfl
  | x :: rest =>
      match x, h with
      | .vNull, h | .vBool _, h | .vInt _, h | .vStr _, h | .vOid _, h | .vDate _, h =>
          simp only [itemsNoNestedArr, Bool.and_eq_true] at h
          simp only [serializeItems, serializeItem, itemsHasPH, valHasPH,
            Bool.false_or]
          exact items_sanitized rest h.2
      | .vDoc d, h =>
          simp only [itemsNoNestedArr, Bool.and_eq_true, valNoNestedArr] at h
          cases hd : d.isEmpty with
          | true => simp [serializeItems, serializeItem, hd, itemsHasPH,
              valHasPH, items_sanitized rest h.2]
          | false =>
              simp only [serializeItems, serializeItem, hd, Bool.false_eq_true,
                if_false, itemsHasPH, valHasPH, Bool.or_eq_false_iff]
              exact ⟨doc_sanitized d h.1, items_sanitized rest h.2⟩

end

/- ------------------------------------------------------------------ -/
/- C1 — serialize_doc strips password_hash at every nesting depth     -/
/- ------------------------------------------------------------------ -/

/-- Claim C1, as stated, is false: the sanitizer's per-item conversion leaves
list items that are themselves lists unchanged, so a document nested inside a
list inside a list keeps its password_hash field.  Concretely,
{"a": [[{"password_hash": "h"}]]} sanitizes to itself and still contains the
field. -/
theorem sanitize_keeps_nested_list_password_hash :
    docHasPH (serialize_doc
      [("a", BVal.vArr [BVal.vArr [BVal.vDoc [("password_hash", BVal.vStr "h")]]])])
      = true := rfl

/-- Claim C1 (amended): for every document in which no array appears directly
inside another array — the shapes serialize_doc fully traverses — the
sanitized output contains no password_hash field at any nesting depth. -/
theorem sanitize_removes_password_hash (d : BDoc)
    (h : docNoNestedArr d = true) :
    docHasPH (serialize_doc d) = false :=
  doc_sanitized d h

/-- Witness for sanitize_removes_password_hash: a concrete document with
password_hash at the top level, inside a nested document and inside a
document in a list. -/
theorem sanitize_removes_password_hash_witness :
    docNoNestedArr
      [("password_hash", BVal.vStr "h0"),
       ("user", BVal.vDoc [("password_hash", BVal.vStr "h1"), ("email", BVal.vStr "e")]),
       ("items", BVal.vArr [BVal.vDoc [("password_hash", BVal.vStr "h2")], BVal.vOid 7])]
      = true ∧
    docHasPH (serialize_doc
      [("password_hash", BVal.vStr "h0"),
       ("user", BVal.vDoc [("password_hash", BVal.vStr "h1"), ("email", BVal.vStr "e")]),
       ("items", BVal.vArr [BVal.vDoc [("password_hash", BVal.vStr "h2")], BVal.vOid 7])])
      = false :=
  ⟨rfl, sanitize_removes_password_hash _ rfl⟩

/- ------------------------------------------------------------------ -/
/- C9 — idempotence of the sanitizer                                  -/
/- ------------------------------------------------------------------ -/

/-- Claim C9, as stated, is false: the sanitizer's recursive calls go
through the falsy guard, so a nested document that the first pass leaves
empty is converted to null (None) by the second pass.  Concretely
{"a": {"password_hash": "h"}} sanitizes to {"a": {}} once but to
{"a": null} twice, and the top-level guard likewise maps
{"password_hash": "h"} to {} once and to None twice. -/
theorem sanitize_not_idempotent :
    serialize_doc [("a", BVal.vDoc [("password_hash", BVal.vStr "h")])]
      = [("a", BVal.vDoc [])] ∧
    serialize_doc (serialize_doc
        [("a", BVal.vDoc [("password_hash", BVal.vStr "h")])])
      = [("a", BVal.vNull)] ∧
    serialize_doc (serialize_doc
        [("a", BVal.vDoc [("password_hash", BVal.vStr "h")])])
      ≠ serialize_doc [("a", BVal.vDoc [("password_hash", BVal.vStr "h")])] ∧
    serialize_doc_opt (serialize_doc_opt
        (some [("password_hash", BVal.vStr "h")]))
      ≠ serialize_doc_opt (some [("password_hash", BVal.vStr "h")]) := by
  refine ⟨rfl, rfl, ?_, ?_⟩
  · intro hcontra
    rw [show serialize_doc (serialize_doc
          [("a", BVal.vDoc [("password_hash", BVal.vStr "h")])])
        = [("a", BVal.vNull)] from rfl,
      show serialize_doc [("a", BVal.vDoc [("password_hash", BVal.vStr "h")])]
        = [("a", BVal.vDoc [])] from rfl] at hcontra
    injection hcontra with hhead _
    injection hhead with _ hval
    exact BVal.noConfusion hval
  · intro hcontra
    rw [show serialize_doc_opt (serialize_doc_opt
          (some [("password_hash", BVal.vStr "h")])) = none from rfl,
      show serialize_doc_opt (some [("password_hash", BVal.vStr "h")])
        = some [] from rfl] at hcontra
    exact Option.noConfusion hcontra

/-- Claim C9 (amended): the sanitizer is idempotent exactly where its output
holds no empty nested document at a converted position: for every document
whose sanitized form has no empty document as a field value or as a
document item of a sequence (recursively), a second application changes
nothing — and the complete guarded routine is then also idempotent whenever
its first result is not the empty document.  Where the first pass does
leave an empty document (an input document whose every field is the
secret-hash field), the second pass turns it into null, nested or at top
level, as the counterexample shows. -/
theorem sanitize_idempotent (d : BDoc)
    (h : docNoEmptySubdoc (serialize_doc d) = true)
    (hne : d = [] ∨ serialize_doc d ≠ []) :
    serialize_doc (serialize_doc d) = serialize_doc d ∧
    serialize_doc_opt (serialize_doc_opt (some d))
      = serialize_doc_opt (some d) := by
  refine ⟨serialize_doc_idem d h, ?_⟩
  rcases hne with hd | hsd
  · subst hd
    rfl
  · have hd : d ≠ [] := by
      intro hdd
      rw [hdd] at hsd
      exact hsd rfl
    have hde : d.isEmpty = false := by
      cases d with
      | nil => exact absurd rfl hd
      | cons a t => rfl
    have hsde : (serialize_doc d).isEmpty = false := by
      cases hsd2 : serialize_doc d with
      | nil => exact absurd hsd2 hsd
      | cons a t => rfl
    simp [serialize_doc_opt, hde, hsde, serialize_doc_idem d h]

/-- Witness for sanitize_idempotent: a concrete document whose sanitized
form — secret hash stripped from the nested document, which stays nonempty,
ObjectId rendered — is unchanged by a second pass, through the top-level
guard too. -/
theorem sanitize_idempotent_witness :
    (docNoEmptySubdoc (serialize_doc sanitizeProbeDoc) = true ∧
     (sanitizeProbeDoc = [] ∨ serialize_doc sanitizeProbeDoc ≠ [])) ∧
    (serialize_doc (serialize_doc sanitizeProbeDoc)
       = serialize_doc sanitizeProbeDoc ∧
     serialize_doc_opt (serialize_doc_opt (some sanitizeProbeDoc))
       = serialize_doc_opt (some sanitizeProbeDoc)) :=
  ⟨⟨rfl, Or.inr (fun hx => by
      rw [show serialize_doc sanitizeProbeDoc
          = [("user", BVal.vDoc [("email", BVal.vStr "e")]),
             ("ref", BVal.vStr (oidStr 3))] from rfl] at hx
      exact List.noConfusion hx)⟩,
   sanitize_idempotent sanitizeProbeDoc rfl
     (Or.inr (fun hx => by
      rw [show serialize_doc sanitizeProbeDoc
          = [("user", BVal.vDoc [("email", BVal.vStr "e")]),
             ("ref", BVal.vStr (oidStr 3))] from rfl] at hx
      exact List.noConfusion hx))⟩

/- ------------------------------------------------------------------ -/
/- C2 — citizens can read only their own cases                        -/
/- ------------------------------------------------------------------ -/

/-- Claim C2, as stated, is false: the case-read endpoint performs no
authentication and no ownership check.  Concretely, citizen 2's request for
case 5, which belongs to citizen 1, is answered 200 with the full case
document instead of a denial. -/
theorem get_case_returns_foreign_case :
    get_case (some ⟨"2", "b@x.com", "B", "citizen"⟩)
      [(5, [("_id", BVal.vOid 5), ("citizen_id", BVal.vOid 1),
            ("title", BVal.vStr "burglary")])] 5
      = (200, some [("_id", BVal.vStr "oid-5"), ("citizen_id", BVal.vStr "oid-1"),
                    ("title", BVal.vStr "burglary")]) := rfl

/-- Claim C2 (amended): the case-read endpoint ignores the caller's
credentials entirely — its response is identical for every caller, and
whenever the case exists it is returned (status 200) regardless of which
citizen owns it.  Citizens can read every case, not only their own. -/
theorem get_case_ignores_credentials (c c' : Option Claims) (store : CaseStore)
    (cid : Nat) :
    get_case c store cid = get_case c' store cid ∧
    ∀ doc, find_case store cid = some doc →
      get_case c store cid = (200, some (to_str_id doc)) := by
  constructor
  · rfl
  · intro doc h
    simp [get_case, h]

/-- Witness for get_case_ignores_credentials at a concrete store: a citizen
credential and the anonymous caller get the same answer, and the stored case
is returned. -/
theorem get_case_ignores_credentials_witness :
    get_case (some ⟨"2", "b@x.com", "B", "citizen"⟩)
        [(5, [("citizen_id", BVal.vOid 1)])] 5
      = get_case none [(5, [("citizen_id", BVal.vOid 1)])] 5 ∧
    get_case (some ⟨"2", "b@x.com", "B", "citizen"⟩)
        [(5, [("citizen_id", BVal.vOid 1)])] 5
      = (200, some (to_str_id [("citizen_id", BVal.vOid 1)])) :=
  ⟨(get_case_ignores_credentials (some ⟨"2", "b@x.com", "B", "citizen"⟩) none
      [(5, [("citizen_id", BVal.vOid 1)])] 5).1,
   (get_case_ignores_credentials (some ⟨"2", "b@x.com", "B", "citizen"⟩) none
      [(5, [("citizen_id", BVal.vOid 1)])] 5).2 [("citizen_id", BVal.vOid 1)] rfl⟩

/- ------------------------------------------------------------------ -/
/- C4 — typed expired-class verification failure                      -/
/- ------------------------------------------------------------------ -/

/-- Claim C4, as stated, is false: token verification (utils/common.py
verify_token) returns the very same result — None — for an expired token, a
bad-signature token and a malformed token, so the expired failure is not
distinguishable from the other failure classes in the verification result. -/
theorem verify_token_collapses_expired :
    verify_token 100 (some (Token.signed ⟨"1", "a@x.com", "A", "citizen"⟩ 50 true))
      = none ∧
    verify_token 100 (some (Token.signed ⟨"1", "a@x.com", "A", "citizen"⟩ 50 true))
      = verify_token 100 (some (Token.signed ⟨"1", "a@x.com", "A", "citizen"⟩ 200 false)) ∧
    verify_token 100 (some (Token.signed ⟨"1", "a@x.com", "A", "citizen"⟩ 50 true))
      = verify_token 100 (some Token.malformed) :=
  ⟨rfl, rfl, rfl⟩

/-- Claim C4 (amended): for every token past its expiry instant, verification
returns the failure result None — never a decoded claim set, and every decode
error is caught, so no exception escapes — but the expired class is collapsed
with the other failures.  Only get_profile's inline handler separates expired
(401 "Token has expired") from every other invalid token (401 "Invalid
token"); malformed and bad-signature tokens are never distinguished. -/
theorem verify_token_expired_yields_none (now e : Nat) (c : Claims)
    (h : e ≤ now) :
    verify_token now (some (Token.signed c e true)) = none ∧
    get_profile_auth now (some (Token.signed c e true))
      = .err 401 "Token has expired" ∧
    ∀ (c2 : Claims) (e2 : Nat),
      get_profile_auth now (some (Token.signed c2 e2 false))
        = .err 401 "Invalid token" := by
  refine ⟨?_, ?_, ?_⟩
  · simp [verify_token, jwtDecode, h]
  · simp [get_profile_auth, jwtDecode, h]
  · intro c2 e2
    simp [get_profile_auth, jwtDecode]

/-- Witness for verify_token_expired_yields_none at clock 100 and expiry 50. -/
theorem verify_token_expired_yields_none_witness :
    (50 : Nat) ≤ 100 ∧
    (verify_token 100 (some (Token.signed ⟨"1", "a@x.com", "A", "citizen"⟩ 50 true))
       = none ∧
     get_profile_auth 100 (some (Token.signed ⟨"1", "a@x.com", "A", "citizen"⟩ 50 true))
       = .err 401 "Token has expired" ∧
     ∀ (c2 : Claims) (e2 : Nat),
       get_profile_auth 100 (some (Token.signed c2 e2 false))
         = .err 401 "Invalid token") :=
  ⟨by decide,
   verify_token_expired_yields_none 100 50 ⟨"1", "a@x.com", "A", "citizen"⟩ (by decide)⟩

/- ------------------------------------------------------------------ -/
/- C8 — 401 for authentication failures, 403 for authorization ones   -/
/- ------------------------------------------------------------------ -/

/-- Claim C8, as stated, is false on the admin endpoints: an authenticated
non-admin — here a valid, unexpired citizen token at clock 100 — calling
GET /api/admin/users receives 401, not the claimed 403; and the duplicated
app.py admin_api handlers answer 403, not 401, to a caller with no token. -/
theorem admin_endpoints_collapse_status :
    admin_get_users_status 100
        (some (Token.signed ⟨"1", "c@x.com", "C", "citizen"⟩ 200 true)) = 401 ∧
    (401 : Nat) ≠ 403 ∧
    admin_api_status 100 none = 403 ∧
    (403 : Nat) ≠ 401 :=
  ⟨rfl, by decide, rfl, by decide⟩

/-- Claim C8 (amended): the admin endpoints collapse the two deny classes —
routes/admin_routes.py answers 401 both without a token and to any
authenticated non-admin, while the app.py admin_api duplicates answer 403 in
both situations.  The officer FIR endpoints do implement the claimed split:
401 for a missing/invalid token and 403 (not-owner) for a foreign FIR. -/
theorem deny_status_mapping (now : Nat) (tok : Option Token) (c : Claims)
    (hv : verify_token now tok = some c) (hrole : c.role ≠ "admin") :
    admin_get_users_status now tok = 401 ∧
    admin_api_status now tok = 403 ∧
    admin_get_users_status now none = 401 ∧
    admin_api_status now none = 403 ∧
    (∀ (store : List Fir) (fid : Nat),
       get_officer_fir none store fid = (401, none)) ∧
    (∀ (store : List Fir) (fir : Fir) (p : Claims) (fid : Nat),
       store.find? (fun f => f.fid == fid) = some fir →
       p.user_id ≠ "" → fir.officer_id ≠ p.user_id →
       get_officer_fir (some p) store fid = (403, none)) := by
  refine ⟨?_, ?_, rfl, rfl, fun store fid => rfl, ?_⟩
  · simp [admin_get_users_status, require_admin, hv, hrole]
  · simp [admin_api_status, admin_required, hv, hrole]
  · intro store fir p fid hfind hp hown
    simp [get_officer_fir, hp, hfind, hown]

/-- Witness for deny_status_mapping: a concrete valid citizen token and a
concrete FIR store with a foreign FIR. -/
theorem deny_status_mapping_witness :
    verify_token 100 (some (Token.signed ⟨"1", "c@x.com", "C", "citizen"⟩ 200 true))
      = some ⟨"1", "c@x.com", "C", "citizen"⟩ ∧
    ("citizen" : String) ≠ "admin" ∧
    admin_get_users_status 100
      (some (Token.signed ⟨"1", "c@x.com", "C", "citizen"⟩ 200 true)) = 401 ∧
    admin_api_status 100
      (some (Token.signed ⟨"1", "c@x.com", "C", "citizen"⟩ 200 true)) = 403 ∧
    get_officer_fir (some ⟨"2", "o2@x.com", "O2", "officer"⟩)
      [{ fid := 9, officer_id := "1" }] 9 = (403, none) :=
  ⟨rfl, by decide,
   (deny_status_mapping 100
      (some (Token.signed ⟨"1", "c@x.com", "C", "citizen"⟩ 200 true))
      ⟨"1", "c@x.com", "C", "citizen"⟩ rfl (by decide)).1,
   (deny_status_mapping 100
      (some (Token.signed ⟨"1", "c@x.com", "C", "citizen"⟩ 200 true))
      ⟨"1", "c@x.com", "C", "citizen"⟩ rfl (by decide)).2.1,
   (deny_status_mapping 100
      (some (Token.signed ⟨"1", "c@x.com", "C", "citizen"⟩ 200 true))
      ⟨"1", "c@x.com", "C", "citizen"⟩ rfl (by decide)).2.2.2.2.2
     [{ fid := 9, officer_id := "1" }] { fid := 9, officer_id := "1" }
     ⟨"2", "o2@x.com", "O2", "officer"⟩ 9 rfl (by decide) (by decide)⟩

/- ------------------------------------------------------------------ -/
/- C3 — strict FIR ownership on get / update / delete                 -/
/- ------------------------------------------------------------------ -/

/-- Claim C3: for a stored FIR whose officer_id is the creating officer pO's
subject id, and any distinct officer pO2 (and an update request with at least
one truthy allowed field), get/update/delete by pO succeed (200) while the
same operations by pO2 are denied 403 not-owner with the store unchanged. -/
theorem fir_owner_only_access (now : Nat) (store : List Fir) (fir : Fir)
    (fid : Nat) (pO pO2 : Claims) (upd : FirUpdate)
    (hfind : store.find? (fun f => f.fid == fid) = some fir)
    (hown : fir.officer_id = pO.user_id)
    (hO : pO.user_id ≠ "") (hO2 : pO2.user_id ≠ "")
    (hdiff : pO2.user_id ≠ pO.user_id)
    (hupd : ((keepField upd.status).isNone && (keepField upd.priority).isNone &&
             (keepField upd.officer_notes).isNone) = false) :
    get_officer_fir (some pO) store fid = (200, some fir) ∧
    (update_officer_fir now (some pO) store fid upd).1 = 200 ∧
    (delete_officer_fir (some pO) store fid).1 = 200 ∧
    get_officer_fir (some pO2) store fid = (403, none) ∧
    update_officer_fir now (some pO2) store fid upd = (403, store) ∧
    delete_officer_fir (some pO2) store fid = (403, store) := by
  have hown2 : fir.officer_id ≠ pO2.user_id := by
    rw [hown]
    exact fun h => hdiff h.symm
  have hdiff2 : pO.user_id ≠ pO2.user_id := fun h => hdiff h.symm
  refine ⟨?_, ?_, ?_, ?_, ?_, ?_⟩ <;>
    simp [get_officer_fir, update_officer_fir, delete_officer_fir,
      hO, hO2, hfind, hown, hown2, hdiff2, hupd]

/-- Witness for fir_owner_only_access: a one-FIR store owned by officer "1",
read/updated/deleted by its owner and by officer "2". -/
theorem fir_owner_only_access_witness :
    ([({ fid := 9, officer_id := "1" } : Fir)].find? (fun f => f.fid == 9)
       = some { fid := 9, officer_id := "1" } ∧
     ("1" : String) ≠ "" ∧ ("2" : String) ≠ "" ∧ ("2" : String) ≠ "1" ∧
     ((keepField (some "Closed")).isNone && (keepField none).isNone &&
      (keepField none).isNone) = false) ∧
    (get_officer_fir (some ⟨"1", "o@x.com", "O", "officer"⟩)
        [{ fid := 9, officer_id := "1" }] 9
       = (200, some { fid := 9, officer_id := "1" }) ∧
     (update_officer_fir 7 (some ⟨"1", "o@x.com", "O", "officer"⟩)
        [{ fid := 9, officer_id := "1" }] 9 { status := some "Closed" }).1 = 200 ∧
     (delete_officer_fir (some ⟨"1", "o@x.com", "O", "officer"⟩)
        [{ fid := 9, officer_id := "1" }] 9).1 = 200 ∧
     get_officer_fir (some ⟨"2", "p@x.com", "P", "officer"⟩)
        [{ fid := 9, officer_id := "1" }] 9 = (403, none) ∧
     update_officer_fir 7 (some ⟨"2", "p@x.com", "P", "officer"⟩)
        [{ fid := 9, officer_id := "1" }] 9 { status := some "Closed" }
       = (403, [{ fid := 9, officer_id := "1" }]) ∧
     delete_officer_fir (some ⟨"2", "p@x.com", "P", "officer"⟩)
        [{ fid := 9, officer_id := "1" }] 9
       = (403, [{ fid := 9, officer_id := "1" }])) :=
  ⟨⟨by decide, by decide, by decide, by decide, by decide⟩,
   fir_owner_only_access 7 [{ fid := 9, officer_id := "1" }]
     { fid := 9, officer_id := "1" } 9
     ⟨"1", "o@x.com", "O", "officer"⟩ ⟨"2", "p@x.com", "P", "officer"⟩
     { status := some "Closed" }
     (by decide) (by decide) (by decide) (by decide) (by decide) (by decide)⟩

/- ------------------------------------------------------------------ -/
/- C6 — defaults of a newly created OfficerFIR                        -/
/- ------------------------------------------------------------------ -/

/-- Claim C6, as stated, is false: an FIR created through the officer
endpoint with no explicit priority or status is stored with priority
"Normal" and status "Pending", not the claimed "High"/"Open" (those defaults
exist only in the unused mongoengine model class). -/
theorem fir_create_not_high_open :
    ((create_officer_fir 0 9 (some ⟨"1", "o@x.com", "O", "officer"⟩)
        [{ uid := "1", email := "o@x.com", role := "officer" }]
        { title := "t", category := "c", complainant_name := "n",
          contact := "p", location := "l", description := "d" }).2.map
       (fun f => (f.priority, f.status)))
      = some ("Normal", "Pending") ∧
    ((create_officer_fir 0 9 (some ⟨"1", "o@x.com", "O", "officer"⟩)
        [{ uid := "1", email := "o@x.com", role := "officer" }]
        { title := "t", category := "c", complainant_name := "n",
          contact := "p", location := "l", description := "d" }).2.map
       (fun f => (f.priority, f.status)))
      ≠ some (OfficerFIR_model_priority_default, OfficerFIR_model_status_default) :=
  ⟨by decide, by decide⟩

/-- Claim C6 (amended): every FIR stored by the officer creation endpoint
without an explicit priority in the request has priority "Normal" and status
"Open" replaced by "Pending" — i.e. priority "Normal" and status "Pending",
which differ from the defaults ("High", "Open") that only the unused
mongoengine OfficerFIR model class declares. -/
theorem fir_create_defaults (now newId : Nat) (p : Claims)
    (users : List UserDoc) (data : FirCreateData)
    (hpri : data.priority = none)
    (hok : (create_officer_fir now newId (some p) users data).1 = 201) :
    (create_officer_fir now newId (some p) users data).2.map
        (fun f => (f.priority, f.status)) = some ("Normal", "Pending") ∧
    some (("Normal" : String), ("Pending" : String))
      ≠ some (OfficerFIR_model_priority_default, OfficerFIR_model_status_default) := by
  refine ⟨?_, by decide⟩
  simp only [create_officer_fir] at hok ⊢
  split at hok
  · simp at hok
  · split at hok
    · simp at hok
    · rename_i officer hfind hreq
      simp [hreq, hpri]

/-- Witness for fir_create_defaults at a concrete creation request with no
priority field, by a stored officer "1". -/
theorem fir_create_defaults_witness :
    (({ title := "t", category := "c", complainant_name := "n", contact := "p",
        location := "l", description := "d" } : FirCreateData).priority = none ∧
     (create_officer_fir 0 9 (some ⟨"1", "o@x.com", "O", "officer"⟩)
        [{ uid := "1", email := "o@x.com", role := "officer" }]
        { title := "t", category := "c", complainant_name := "n",
          contact := "p", location := "l", description := "d" }).1 = 201) ∧
    ((create_officer_fir 0 9 (some ⟨"1", "o@x.com", "O", "officer"⟩)
        [{ uid := "1", email := "o@x.com", role := "officer" }]
        { title := "t", category := "c", complainant_name := "n",
          contact := "p", location := "l", description := "d" }).2.map
        (fun f => (f.priority, f.status)) = some ("Normal", "Pending") ∧
     some (("Normal" : String), ("Pending" : String))
       ≠ some (OfficerFIR_model_priority_default, OfficerFIR_model_status_default)) :=
  ⟨⟨rfl, by decide⟩,
   fir_create_defaults 0 9 ⟨"1", "o@x.com", "O", "officer"⟩
     [{ uid := "1", email := "o@x.com", role := "officer" }]
     { title := "t", category := "c", complainant_name := "n", contact := "p",
       location := "l", description := "d" }
     rfl (by decide)⟩

/- ------------------------------------------------------------------ -/
/- Helper lemmas for the email / login / upload claims                -/
/- ------------------------------------------------------------------ -/

theorem char_toNat_ofNat (n : Nat) (h : n < 55296) : (Char.ofNat n).toNat = n := by
  have hv : n.isValidChar := Or.inl h
  simp [Char.ofNat, hv, Char.ofNatAux, Char.toNat, UInt32.toNat]

theorem lowerChar_idem (c : Char) : lowerChar (lowerChar c) = lowerChar c := by
  by_cases h : 65 ≤ c.toNat ∧ c.toNat ≤ 90
  · have h2 : (Char.ofNat (c.toNat + 32)).toNat = c.toNat + 32 :=
      char_toNat_ofNat _ (by omega)
    unfold lowerChar
    rw [if_pos h, if_neg (by rw [h2]; omega)]
  · unfold lowerChar
    rw [if_neg h, if_neg h]

theorem lowerChar_ne_of_upper (c : Char) (h : 65 ≤ c.toNat ∧ c.toNat ≤ 90) :
    lowerChar c ≠ c := by
  have h2 : (Char.ofNat (c.toNat + 32)).toNat = c.toNat + 32 :=
    char_toNat_ofNat _ (by omega)
  unfold lowerChar
  rw [if_pos h]
  intro heq
  have := congrArg Char.toNat heq
  rw [h2] at this
  omega

theorem lowerStr_idem (s : String) : lowerStr (lowerStr s) = lowerStr s := by
  unfold lowerStr
  rw [show (⟨s.data.map lowerChar⟩ : String).data = s.data.map lowerChar from rfl,
    List.map_map]
  exact congrArg String.mk (List.map_congr_left (fun c _ => lowerChar_idem c))

theorem map_self_fix {α : Type} {f : α → α} :
    ∀ (l : List α), l.map f = l → ∀ x ∈ l, f x = x
  | [], _, x, hx => absurd hx (List.not_mem_nil x)
  | a :: t, h, x, hx => by
      rw [List.map_cons, List.cons.injEq] at h
      rcases List.mem_cons.mp hx with hxa | hxt
      · rw [hxa]
        exact h.1
      · exact map_self_fix t h.2 x hxt

theorem lowerStr_ne_of_hasUpper (s : String) (h : hasUpper s = true) :
    lowerStr s ≠ s := by
  intro heq
  have hd : s.data.map lowerChar = s.data := congrArg String.data heq
  simp only [hasUpper, List.any_eq_true, Bool.and_eq_true, decide_eq_true_eq] at h
  obtain ⟨c, hc, hup⟩ := h
  exact lowerChar_ne_of_upper c hup (map_self_fix s.data hd c hc)

theorem hasUpper_ne_empty (s : String) (h : hasUpper s = true) : s ≠ "" := by
  intro he
  rw [he] at h
  cases h

theorem find?_append_of_none {α : Type} {p : α → Bool} :
    ∀ (l1 l2 : List α), l1.find? p = none → (l1 ++ l2).find? p = l2.find? p
  | [], l2, _ => rfl
  | a :: t, l2, h => by
      cases hpa : p a with
      | true => simp [List.find?, hpa] at h
      | false =>
          have ht : t.find? p = none := by simpa [List.find?, hpa] using h
          simp only [List.cons_append, List.find?, hpa]
          exact find?_append_of_none t l2 ht

theorem emailsDistinctCI_append (store : List UserDoc) (u : UserDoc)
    (hd : emailsDistinctCI store = true)
    (hnew : ∀ v ∈ store, lowerStr v.email ≠ lowerStr u.email) :
    emailsDistinctCI (store ++ [u]) = true := by
  induction store with
  | nil => simp [emailsDistinctCI]
  | cons w rest ih =>
      simp only [emailsDistinctCI, Bool.and_eq_true, List.all_eq_true] at hd
      simp only [List.cons_append, emailsDistinctCI, Bool.and_eq_true,
        List.all_eq_true]
      refine ⟨?_, ih hd.2 (fun v hv => hnew v (List.mem_cons_of_mem w hv))⟩
      intro v hv
      rcases List.mem_append.mp hv with hmem | hmem
      · exact hd.1 v hmem
      · rw [List.mem_singleton.mp hmem]
        exact bne_iff_ne.mpr (hnew w (List.mem_cons_self w rest))

theorem processFiles_spec (files : List UFile) (a b : Nat)
    (hn : ∀ f ∈ files, f.filename ≠ "") :
    (processFiles true a b files).2
      = (files.filter (fun f => MAX_EVIDENCE_SIZE < f.size)).map
          (fun f => f.filename ++ ": File too large (max 10MB)") ∧
    (processFiles true a b files).1.map (fun e => (e.filename, e.size))
      = (files.filter (fun f => f.size ≤ MAX_EVIDENCE_SIZE)).map
          (fun f => (f.filename, f.size)) := by
  induction files generalizing a b with
  | nil => exact ⟨rfl, rfl⟩
  | cons f rest ih =>
      have hf : f.filename ≠ "" := hn f (List.mem_cons_self f rest)
      have hrest : ∀ g ∈ rest, g.filename ≠ "" :=
        fun g hg => hn g (List.mem_cons_of_mem f hg)
      by_cases hs : MAX_EVIDENCE_SIZE < f.size
      · have h1 := ih a b hrest
        simp [processFiles, hf, hs, Nat.not_le.mpr hs, h1.1, h1.2]
      · have h1 := ih (a + 1) (b + 1) hrest
        simp [processFiles, hf, hs, Nat.not_lt.mp hs, h1.1, h1.2]

/- ------------------------------------------------------------------ -/
/- C5 — per-file partitioned evidence upload                          -/
/- ------------------------------------------------------------------ -/

/-- Claim C5: with the handler's entry checks satisfied (authenticated
officer, existing linked case, a nonempty batch of named files, GridFS
available), the files are processed independently: the errors list holds
exactly one size message per file over 10 MiB, the uploaded list holds
exactly the remaining files in order, the status is 201 exactly when at
least one file uploaded and 400 exactly when none did. -/
theorem evidence_upload_partitioned (p : Claims) (caseIds : List Nat)
    (firs : List Fir) (cid : Nat) (files : List UFile)
    (hp : p.user_id ≠ "") (hc : caseIds.contains cid = true) (hf : files ≠ [])
    (hn : ∀ f ∈ files, f.filename ≠ "") :
    (upload_evidence (some p) caseIds firs (some cid) none files true).2.2
      = (files.filter (fun f => MAX_EVIDENCE_SIZE < f.size)).map
          (fun f => f.filename ++ ": File too large (max 10MB)") ∧
    (upload_evidence (some p) caseIds firs (some cid) none files true).2.1.map
        (fun e => (e.filename, e.size))
      = (files.filter (fun f => f.size ≤ MAX_EVIDENCE_SIZE)).map
          (fun f => (f.filename, f.size)) ∧
    ((upload_evidence (some p) caseIds firs (some cid) none files true).1 = 201
       ↔ (upload_evidence (some p) caseIds firs (some cid) none files true).2.1 ≠ []) ∧
    ((upload_evidence (some p) caseIds firs (some cid) none files true).1 = 400
       ↔ (upload_evidence (some p) caseIds firs (some cid) none files true).2.1 = []) := by
  have hspec := processFiles_spec files 0 0 hn
  have hfe : files.isEmpty = false := by
    cases files with
    | nil => exact absurd rfl hf
    | cons a t => rfl
  simp only [upload_evidence, hp, if_neg, hfe, hc, Option.isNone_none,
    Option.isSome_some, Option.isNone_some, Bool.and_false, Bool.false_and,
    Bool.and_true, Bool.true_and, Bool.not_true, Bool.false_eq_true,
    if_false, Option.getD_some]
  by_cases he : (processFiles true 0 0 files).1.isEmpty
  · have he' : (processFiles true 0 0 files).1 = [] := by
      cases hl : (processFiles true 0 0 files).1 with
      | nil => rfl
      | cons a t => rw [hl] at he; cases he
    have hall : files.filter (fun f => f.size ≤ MAX_EVIDENCE_SIZE) = [] := by
      have h2 := hspec.2
      rw [he'] at h2
      exact List.map_eq_nil_iff.mp h2.symm
    simp [he, he', hspec.1, hspec.2, hall]
  · have he' : (processFiles true 0 0 files).1 ≠ [] := by
      intro hl
      rw [hl] at he
      exact he rfl
    simp [he, he', hspec.1, hspec.2]

/-- Witness for evidence_upload_partitioned: the claim's concrete scenario —
a batch of three files of which exactly the second exceeds 10 MiB yields
exactly one error entry, two uploads and status 201. -/
theorem evidence_upload_partitioned_witness :
    (("1" : String) ≠ "" ∧ ([7] : List Nat).contains 7 = true ∧
     ([⟨"a.png", 100, "image/png"⟩, ⟨"big.bin", 10485761, "application/x"⟩,
       ⟨"c.pdf", 2048, "application/pdf"⟩] : List UFile) ≠ [] ∧
     ∀ f ∈ ([⟨"a.png", 100, "image/png"⟩, ⟨"big.bin", 10485761, "application/x"⟩,
             ⟨"c.pdf", 2048, "application/pdf"⟩] : List UFile), f.filename ≠ "") ∧
    ((upload_evidence (some ⟨"1", "o@x.com", "O", "officer"⟩) [7] [] (some 7) none
        [⟨"a.png", 100, "image/png"⟩, ⟨"big.bin", 10485761, "application/x"⟩,
         ⟨"c.pdf", 2048, "application/pdf"⟩] true).2.2
      = (([⟨"a.png", 100, "image/png"⟩, ⟨"big.bin", 10485761, "application/x"⟩,
           ⟨"c.pdf", 2048, "application/pdf"⟩] : List UFile).filter
            (fun f => MAX_EVIDENCE_SIZE < f.size)).map
          (fun f => f.filename ++ ": File too large (max 10MB)") ∧
     (upload_evidence (some ⟨"1", "o@x.com", "O", "officer"⟩) [7] [] (some 7) none
        [⟨"a.png", 100, "image/png"⟩, ⟨"big.bin", 10485761, "application/x"⟩,
         ⟨"c.pdf", 2048, "application/pdf"⟩] true).2.1.map
         (fun e => (e.filename, e.size))
      = (([⟨"a.png", 100, "image/png"⟩, ⟨"big.bin", 10485761, "application/x"⟩,
           ⟨"c.pdf", 2048, "application/pdf"⟩] : List UFile).filter
            (fun f => f.size ≤ MAX_EVIDENCE_SIZE)).map
          (fun f => (f.filename, f.size)) ∧
     ((upload_evidence (some ⟨"1", "o@x.com", "O", "officer"⟩) [7] [] (some 7) none
        [⟨"a.png", 100, "image/png"⟩, ⟨"big.bin", 10485761, "application/x"⟩,
         ⟨"c.pdf", 2048, "application/pdf"⟩] true).1 = 201
       ↔ (upload_evidence (some ⟨"1", "o@x.com", "O", "officer"⟩) [7] [] (some 7) none
            [⟨"a.png", 100, "image/png"⟩, ⟨"big.bin", 10485761, "application/x"⟩,
             ⟨"c.pdf", 2048, "application/pdf"⟩] true).2.1 ≠ []) ∧
     ((upload_evidence (some ⟨"1", "o@x.com", "O", "officer"⟩) [7] [] (some 7) none
        [⟨"a.png", 100, "image/png"⟩, ⟨"big.bin", 10485761, "application/x"⟩,
         ⟨"c.pdf", 2048, "application/pdf"⟩] true).1 = 400
       ↔ (upload_evidence (some ⟨"1", "o@x.com", "O", "officer"⟩) [7] [] (some 7) none
            [⟨"a.png", 100, "image/png"⟩, ⟨"big.bin", 10485761, "application/x"⟩,
             ⟨"c.pdf", 2048, "application/pdf"⟩] true).2.1 = [])) :=
  ⟨⟨by decide, by decide, by decide, by decide⟩,
   evidence_upload_partitioned ⟨"1", "o@x.com", "O", "officer"⟩ [7] [] 7
     [⟨"a.png", 100, "image/png"⟩, ⟨"big.bin", 10485761, "application/x"⟩,
      ⟨"c.pdf", 2048, "application/pdf"⟩]
     (by decide) (by decide) (by decide) (by decide)⟩

/- ------------------------------------------------------------------ -/
/- C7 — email uniqueness across the user-creation operations          -/
/- ------------------------------------------------------------------ -/

/-- Claim C7, as stated, is false: the admin creation path performs no
duplicate-email check.  Starting from a store with the single email
"a@x.com" (pairwise distinct), an authenticated admin's creation request
with the same email succeeds with 201 and leaves the store with two users
sharing that email. -/
theorem admin_create_breaks_email_uniqueness :
    emailsDistinctCI [{ uid := "1", email := "a@x.com" }] = true ∧
    (AdminRoutes.create_user 5 "2"
       (some (Token.signed ⟨"9", "adm@x.com", "A", "admin"⟩ 200 true))
       [{ uid := "1", email := "a@x.com" }]
       { email := "a@x.com", role := "citizen", password := "pw" }).1 = 201 ∧
    emailsDistinctCI
      (AdminRoutes.create_user 5 "2"
         (some (Token.signed ⟨"9", "adm@x.com", "A", "admin"⟩ 200 true))
         [{ uid := "1", email := "a@x.com" }]
         { email := "a@x.com", role := "citizen", password := "pw" }).2 = false :=
  ⟨by decide, by decide, by decide⟩

/-- Claim C7 (amended): only the registration path enforces uniqueness, and
it does so against the lowercased store: starting from a store of lowercase,
pairwise case-insensitively distinct emails, registration keeps the store
lowercase and distinct, and a duplicate registration is rejected with the
store unchanged.  (The admin path checks nothing and stores the submitted
email verbatim, so it can produce duplicates — see the counterexample.) -/
theorem register_preserves_email_uniqueness (now : Nat) (newId : String)
    (store : List UserDoc) (first lastn email phone password role : String)
    (hlow : ∀ u ∈ store, lowerStr u.email = u.email)
    (hdist : emailsDistinctCI store = true) :
    emailsDistinctCI
      (UserModel.create_user now newId store first lastn email phone password role).1
      = true ∧
    (∀ u ∈ (UserModel.create_user now newId store first lastn email phone
              password role).1, lowerStr u.email = u.email) ∧
    ((UserModel.create_user now newId store first lastn email phone password
        role).2.isSome →
      (UserModel.create_user now newId store first lastn email phone password
         role).1 = store) := by
  unfold UserModel.create_user
  by_cases hdup : (store.find? (fun u => u.email == lowerStr email)).isSome
  · rw [if_pos hdup]
    exact ⟨hdist, hlow, fun _ => rfl⟩
  · rw [if_neg hdup]
    have hnone : store.find? (fun u => u.email == lowerStr email) = none :=
      Option.not_isSome_iff_eq_none.mp hdup
    have hmiss : ∀ u ∈ store, ¬(u.email == lowerStr email) = true := by
      intro u hu hbeq
      rw [List.find?_eq_none] at hnone
      exact hnone u hu hbeq
    refine ⟨?_, ?_, ?_⟩
    · apply emailsDistinctCI_append store _ hdist
      intro v hv hle
      simp only [lowerStr_idem] at hle
      rw [hlow v hv] at hle
      exact hmiss v hv (beq_iff_eq.mpr hle)
    · intro u hu
      rcases List.mem_append.mp hu with hmem | hmem
      · exact hlow u hmem
      · rw [List.mem_singleton.mp hmem]
        exact lowerStr_idem email
    · simp

/-- Witness for register_preserves_email_uniqueness: registering "B@x.com"
into a one-user lowercase store keeps the emails distinct, and registering a
duplicate of "a@x.com" is rejected with the store unchanged. -/
theorem register_preserves_email_uniqueness_witness :
    ((∀ u ∈ ([{ uid := "1", email := "a@x.com" }] : List UserDoc),
        lowerStr u.email = u.email) ∧
     emailsDistinctCI [{ uid := "1", email := "a@x.com" }] = true) ∧
    (emailsDistinctCI
       (UserModel.create_user 3 "2" [{ uid := "1", email := "a@x.com" }]
          "B" "C" "B@x.com" "555" "pw" "citizen").1 = true ∧
     (∀ u ∈ (UserModel.create_user 3 "2" [{ uid := "1", email := "a@x.com" }]
               "B" "C" "B@x.com" "555" "pw" "citizen").1,
        lowerStr u.email = u.email) ∧
     ((UserModel.create_user 3 "2" [{ uid := "1", email := "a@x.com" }]
         "B" "C" "B@x.com" "555" "pw" "citizen").2.isSome →
       (UserModel.create_user 3 "2" [{ uid := "1", email := "a@x.com" }]
          "B" "C" "B@x.com" "555" "pw" "citizen").1
         = [{ uid := "1", email := "a@x.com" }])) ∧
    ((UserModel.create_user 3 "2" [{ uid := "1", email := "a@x.com" }]
        "D" "E" "A@x.com" "555" "pw" "citizen").2.isSome ∧
     (UserModel.create_user 3 "2" [{ uid := "1", email := "a@x.com" }]
        "D" "E" "A@x.com" "555" "pw" "citizen").1
       = [{ uid := "1", email := "a@x.com" }]) :=
  ⟨⟨by decide, by decide⟩,
   register_preserves_email_uniqueness 3 "2" [{ uid := "1", email := "a@x.com" }]
     "B" "C" "B@x.com" "555" "pw" "citizen" (by decide) (by decide),
   by decide,
   (register_preserves_email_uniqueness 3 "2" [{ uid := "1", email := "a@x.com" }]
     "D" "E" "A@x.com" "555" "pw" "citizen" (by decide) (by decide)).2.2 (by decide)⟩

/- ------------------------------------------------------------------ -/
/- C10 — registration lowercases, login matches exactly               -/
/- ------------------------------------------------------------------ -/

theorem login_no_exact_match (store2 : List UserDoc)
    (email password role : String)
    (hne : email ≠ "") (hpw : password ≠ "") (hrole : role ≠ "")
    (hmiss : ∀ u ∈ store2, u.email ≠ email) :
    login store2 email password role = .noAccount := by
  have hfind : store2.find? (fun u => u.email == email && u.role == role)
      = none := by
    rw [List.find?_eq_none]
    intro u hu
    simp [hmiss u hu]
  simp [login, hne, hpw, hrole, hfind]

theorem login_success_of_append (store2 : List UserDoc) (u : UserDoc)
    (email password role : String)
    (hne : email ≠ "") (hpw : password ≠ "") (hrole : role ≠ "")
    (hmiss : store2.find? (fun v => v.email == email && v.role == role) = none)
    (hue : u.email = email) (hur : u.role = role)
    (hupw : check_password_hash u.password_hash password = true) :
    login (store2 ++ [u]) email password role = .success u := by
  have hfind : (store2 ++ [u]).find?
      (fun v => v.email == email && v.role == role) = some u := by
    rw [find?_append_of_none _ _ hmiss]
    simp [List.find?, hue, hur]
  simp [login, hne, hpw, hrole, hfind, hupw]

/-- Claim C10: registration stores the email lowercased while login matches
the submitted email exactly, so a user registered with an email containing
an uppercase letter (into a store holding neither that exact string nor its
lowercase form) can never log in with the exact registration string — the
result is the 404 no-account failure — while the lowercased form logs in
successfully with the same password and role. -/
theorem login_is_case_sensitive (now : Nat) (newId : String)
    (store : List UserDoc) (first lastn email phone password role : String)
    (hup : hasUpper email = true)
    (hpw : password ≠ "") (hrole : role ≠ "")
    (hnew : ∀ u ∈ store, u.email ≠ email)
    (hnodup : store.find? (fun u => u.email == lowerStr email) = none) :
    login (UserModel.create_user now newId store first lastn email phone
             password role).1 email password role = .noAccount ∧
    login (UserModel.create_user now newId store first lastn email phone
             password role).1 (lowerStr email) password role
      = .success { uid := newId, first_name := first, last_name := lastn,
                   email := lowerStr email, phone := phone,
                   password_hash := generate_password_hash password,
                   role := role, created_at := now, updated_at := now } := by
  have hne : email ≠ "" := hasUpper_ne_empty email hup
  have hlne : lowerStr email ≠ email := lowerStr_ne_of_hasUpper email hup
  have hlnemp : lowerStr email ≠ "" := by
    intro hl
    rcases List.any_eq_true.mp hup with ⟨c, hc, hcu⟩
    have hdata : (lowerStr email).data = [] := congrArg String.data hl
    simp only [lowerStr] at hdata
    rw [List.map_eq_nil_iff] at hdata
    rw [hdata] at hc
    exact absurd hc (List.not_mem_nil c)
  have hcreate : (UserModel.create_user now newId store first lastn email phone
      password role).1
      = store ++ [{ uid := newId, first_name := first, last_name := lastn,
                    email := lowerStr email, phone := phone,
                    password_hash := generate_password_hash password,
                    role := role, created_at := now, updated_at := now }] := by
    unfold UserModel.create_user
    rw [hnodup]
    rfl
  rw [hcreate]
  constructor
  · apply login_no_exact_match _ _ _ _ hne hpw hrole
    intro u hu
    rcases List.mem_append.mp hu with hmem | hmem
    · exact hnew u hmem
    · rw [List.mem_singleton.mp hmem]
      exact hlne
  · apply login_success_of_append _ _ _ _ _ hlnemp hpw hrole
    · rw [List.find?_eq_none]
      intro u hu
      rw [List.find?_eq_none] at hnodup
      simp only [Bool.and_eq_true, beq_iff_eq, not_and]
      intro hmail _
      exact hnodup u hu (beq_iff_eq.mpr hmail)
    · rfl
    · rfl
    · simp [check_password_hash]

/-- Witness for login_is_case_sensitive: register "A@x.com" into an empty
store; the exact string cannot log in (404 no-account) while "a@x.com" can. -/
theorem login_is_case_sensitive_witness :
    (hasUpper "A@x.com" = true ∧ ("p1" : String) ≠ "" ∧
     ("citizen" : String) ≠ "" ∧
     (∀ u ∈ ([] : List UserDoc), u.email ≠ "A@x.com") ∧
     ([] : List UserDoc).find? (fun u => u.email == lowerStr "A@x.com") = none) ∧
    (login (UserModel.create_user 4 "1" [] "Ann" "Lee" "A@x.com" "555" "p1"
              "citizen").1 "A@x.com" "p1" "citizen" = .noAccount ∧
     login (UserModel.create_user 4 "1" [] "Ann" "Lee" "A@x.com" "555" "p1"
              "citizen").1 (lowerStr "A@x.com") "p1" "citizen"
       = .success { uid := "1", first_name := "Ann", last_name := "Lee",
                    email := lowerStr "A@x.com", phone := "555",
                    password_hash := generate_password_hash "p1",
                    role := "citizen", created_at := 4, updated_at := 4 }) :=
  ⟨⟨by decide, by decide, by decide, by decide, by decide⟩,
   login_is_case_sensitive 4 "1" [] "Ann" "Lee" "A@x.com" "555" "p1" "citizen"
     (by decide) (by decide) (by decide) (by decide) (by decide)⟩
